import Mathlib

/-!
Shallow embedding of the vLLM multiprocessing engine front end
(`vllm/engine/multiprocessing/engine.py`, `vllm/engine/multiprocessing/__init__.py`,
`vllm/remote_prefill.py`).

The `MQLLMEngine` control loop is embedded as explicit state passing over an
`EngineState` record; the opaque `LLMEngine` (the Adapter) is represented by
oracles: the outcome of each engine call (`Except Exc ...`) is a parameter of
the embedded operation.  Channel sends are recorded as lists of messages in
the state, in send order.
-/

set_option autoImplicit false

namespace VllmMQ

/-- Python exception values, by (dynamic) class.  `systemExit`,
`keyboardInterrupt` and `otherBaseException` are `BaseException`s that are not
`Exception`s; everything else is an `Exception`.  `inputProcessingError`
carries the request id and the `cause` that vLLM attaches with
`raise ... from e`; `rayTaskError` wraps an underlying cause;
`mqEngineDead`/`mqEngineDeadNoCause` are the two forms built by
`ENGINE_DEAD_ERROR`. -/
inductive Exc where
  | systemExit
  | keyboardInterrupt
  | inputProcessingError (request_id : String) (cause : Exc)
  | rayTaskError (cause : Exc)
  | mqEngineDead (cause : Exc)
  | mqEngineDeadNoCause
  | valueError (msg : String)
  | unboundLocalError (name : String)
  | otherException (tag : String)
  | otherBaseException (tag : String)
  deriving DecidableEq

/-- Whether the exception is an instance of Python's `Exception` class
(matters for `except Exception` handlers). -/
def Exc.isException : Exc → Bool
  | .systemExit => false
  | .keyboardInterrupt => false
  | .otherBaseException _ => false
  | _ => true

/-- Whether the exception is an instance of `SystemExit`. -/
def Exc.isSystemExit : Exc → Bool
  | .systemExit => true
  | _ => false

/-- Whether the exception is an instance of `InputProcessingError`. -/
def Exc.isInputProcessingError : Exc → Bool
  | .inputProcessingError _ _ => true
  | _ => false

/-- `ENGINE_DEAD_ERROR` from `multiprocessing/__init__.py`: builds an
`MQEngineDeadError`, mentioning `repr(error)` when a cause is given. -/
def ENGINE_DEAD_ERROR : Option Exc → Exc
  | none => .mqEngineDeadNoCause
  | some e => .mqEngineDead e

/-- `RPCError` dataclass from `multiprocessing/__init__.py`. -/
structure RPCError where
  request_id : Option String
  is_engine_errored : Bool
  exception : Exc
  deriving DecidableEq

/-- One element of `RequestOutput` lists returned by `engine.step()`
(opaque here beyond its request id). -/
structure RequestOutput where
  request_id : String
  deriving DecidableEq

/-- `REQUEST_OUTPUTS_T`: the payloads `_send_outputs` accepts. -/
inductive Outputs where
  | requestOutputs (outs : List RequestOutput)
  | adapterLoadedResponse (request_id : String)
  | isSleepingResponse (request_id : String) (is_sleeping : Bool)
  | rpcError (err : RPCError)
  deriving DecidableEq

/-- Python truthiness of a `REQUEST_OUTPUTS_T` value (`if outputs:`):
an empty list is falsy, every other payload is truthy. -/
def Outputs.isTruthy : Outputs → Bool
  | .requestOutputs outs => !outs.isEmpty
  | _ => true

/-- Messages on the HEALTH (heartbeat) channel: the pickled `"SUCCESS"`
sentinel or a pickled exception. -/
inductive HealthMsg where
  | healthy
  | unhealthy (error : Exc)
  deriving DecidableEq

/-- The `RayTaskError` unwrapping in `_send_outputs`: performed only when
`ray` imports (capability probe), and only on `RPCError` payloads whose
exception is a `RayTaskError`. -/
def unwrapRayError (ray_present : Bool) (o : Outputs) : Outputs :=
  if ray_present then
    match o with
    | .rpcError err =>
      match err.exception with
      | .rayTaskError cause => .rpcError { err with exception := cause }
      | _ => o
    | _ => o
  else o

/-- The observable state of one `MQLLMEngine` process.  Channel traffic is
recorded in send order; calls into the opaque `LLMEngine` that the claims
observe (`add_request` attempts/successes, `abort_request`, `check_health`)
are recorded as well. -/
structure EngineState where
  errored_with : Option Exc
  use_async_sockets : Bool
  is_nixl_initialized : Bool
  ray_present : Bool
  heartbeat_closed : Bool
  output_msgs : List Outputs
  health_msgs : List HealthMsg
  nixl_registered : List String
  add_request_attempts : List String
  add_request_added : List String
  aborted_requests : List String
  prefill_callbacks : List String
  check_health_calls : Nat
  deriving DecidableEq

/-- `_send_outputs`: skip falsy payloads, unwrap `RayTaskError` when ray is
present, then push on the OUTPUT channel. -/
def send_outputs (st : EngineState) (outputs : Outputs) : EngineState :=
  if outputs.isTruthy then
    { st with output_msgs := st.output_msgs ++ [unwrapRayError st.ray_present outputs] }
  else st

/-- `_send_healthy`: push the healthy sentinel unless the heartbeat socket
is closed. -/
def send_healthy (st : EngineState) : EngineState :=
  if st.heartbeat_closed then st
  else { st with health_msgs := st.health_msgs ++ [HealthMsg.healthy] }

/-- `_send_unhealthy`: push a pickled exception unless the heartbeat socket
is closed. -/
def send_unhealthy (st : EngineState) (error : Exc) : EngineState :=
  if st.heartbeat_closed then st
  else { st with health_msgs := st.health_msgs ++ [HealthMsg.unhealthy error] }

/-- `_set_errored`: record the errored status only if this is the first
issue. -/
def set_errored (st : EngineState) (e : Exc) : EngineState :=
  if st.errored_with = none then { st with errored_with := some e } else st

/-- Oracle for the outcomes of the opaque `LLMEngine` calls made while
dispatching one batch of input messages. -/
structure AdapterR where
  add_request : String → Except Exc Unit
  add_lora : String → Except Exc Unit
  start_profile : Except Exc Unit
  stop_profile : Except Exc Unit
  reset_prefix_cache : Except Exc Bool
  sleep : Nat → Except Exc Unit
  wake_up : Option (List String) → Except Exc Unit
  is_sleeping : Except Exc Bool

/-- `RPCProcessRequest`, reduced to the fields the gateway inspects:
its id and whether its remote-prefill parameters mark it remote-prefill. -/
structure RPCProcessRequest where
  request_id : String
  is_remote_prefill : Bool
  deriving DecidableEq

/-- `RPCLoadAdapterRequest`, reduced to its request id. -/
structure RPCLoadAdapterRequest where
  request_id : String
  deriving DecidableEq

/-- The tagged union of messages arriving on the INPUT channel, as
discriminated by the `isinstance` chain of `handle_new_input`;
`unknownRequest` stands for any object of unrecognized type. -/
inductive InputMsg where
  | processRequest (request : RPCProcessRequest)
  | abortRequest (request_id : String)
  | startProfileRequest
  | stopProfileRequest
  | loadAdapterRequest (request : RPCLoadAdapterRequest)
  | resetPrefixCacheRequest
  | sleepRequest (level : Nat)
  | wakeUpRequest (tags : Option (List String))
  | isSleepingRequest (request_id : String)
  | unknownRequest (type_name : String)

/-- `_handle_process_request`: when already errored, first send an
engine-dead `RPCError` for this id; install the remote-prefill callback if
requested; then try `engine.add_request`, and on failure send a per-request
`RPCError` (engine-errored iff already latched) and abort the request. -/
def handle_process_request (A : AdapterR) (st : EngineState)
    (request : RPCProcessRequest) : EngineState :=
  let request_id := request.request_id
  let st1 :=
    match st.errored_with with
    | some c =>
        send_outputs st (.rpcError ⟨some request_id, true, ENGINE_DEAD_ERROR (some c)⟩)
    | none => st
  let st2 :=
    if request.is_remote_prefill then
      { st1 with prefill_callbacks := st1.prefill_callbacks ++ [request_id] }
    else st1
  let st3 := { st2 with add_request_attempts := st2.add_request_attempts ++ [request_id] }
  match A.add_request request_id with
  | .ok _ => { st3 with add_request_added := st3.add_request_added ++ [request_id] }
  | .error e =>
      let is_errored := st3.errored_with.isSome
      let st4 := send_outputs st3 (.rpcError ⟨some request_id, is_errored, e⟩)
      { st4 with aborted_requests := st4.aborted_requests ++ [request_id] }

/-- `_handle_abort_request`: forward to `engine.abort_request`. -/
def handle_abort_request (st : EngineState) (request_id : String) : EngineState :=
  { st with aborted_requests := st.aborted_requests ++ [request_id] }

/-- `_handle_load_adapter_request`: on failure send an `RPCError` with
`is_engine_errored=False`, otherwise send `RPCAdapterLoadedResponse`. -/
def handle_load_adapter_request (A : AdapterR) (st : EngineState)
    (request : RPCLoadAdapterRequest) : EngineState :=
  match A.add_lora request.request_id with
  | .error e => send_outputs st (.rpcError ⟨some request.request_id, false, e⟩)
  | .ok _ => send_outputs st (.adapterLoadedResponse request.request_id)

/-- `_handle_is_sleeping_request`: query the engine and send the response
(the query itself may raise, which propagates). -/
def handle_is_sleeping_request (A : AdapterR) (st : EngineState)
    (request_id : String) : EngineState × Option Exc :=
  match A.is_sleeping with
  | .ok b => (send_outputs st (.isSleepingResponse request_id b), none)
  | .error e => (st, some e)

/-- One pass of the `isinstance` dispatch chain in `handle_new_input`;
the second component is the exception the pass raised, if any.  An
unrecognized type raises
`ValueError("Unknown RPCRequest Type: " + type_name)`. -/
def dispatchInput (A : AdapterR) (st : EngineState) (msg : InputMsg) :
    EngineState × Option Exc :=
  match msg with
  | .processRequest request => (handle_process_request A st request, none)
  | .abortRequest request_id => (handle_abort_request st request_id, none)
  | .startProfileRequest =>
      match A.start_profile with
      | .ok _ => (st, none)
      | .error e => (st, some e)
  | .stopProfileRequest =>
      match A.stop_profile with
      | .ok _ => (st, none)
      | .error e => (st, some e)
  | .loadAdapterRequest request => (handle_load_adapter_request A st request, none)
  | .resetPrefixCacheRequest =>
      match A.reset_prefix_cache with
      | .ok _ => (st, none)
      | .error e => (st, some e)
  | .sleepRequest level =>
      match A.sleep level with
      | .ok _ => (st, none)
      | .error e => (st, some e)
  | .wakeUpRequest tags =>
      match A.wake_up tags with
      | .ok _ => (st, none)
      | .error e => (st, some e)
  | .isSleepingRequest request_id => handle_is_sleeping_request A st request_id
  | .unknownRequest type_name =>
      (st, some (.valueError ("Unknown RPCRequest Type: " ++ type_name)))

/-- The zero-wait drain of the INPUT channel: dispatch messages in order
until the queue is empty or a dispatch raises. -/
def drainInput (A : AdapterR) : EngineState → List InputMsg → EngineState × Option Exc
  | st, [] => (st, none)
  | st, msg :: rest =>
    match dispatchInput A st msg with
    | (st2, none) => drainInput A st2 rest
    | (st2, some e) => (st2, some e)

/-- The zero-wait drain of the REMOTE_NIXL_METADATA channel: each frame
either decodes to a peer engine id that gets registered, or raises. -/
def drainNixl : EngineState → List (Except Exc String) → EngineState × Option Exc
  | st, [] => (st, none)
  | st, .ok engine_id :: rest =>
      drainNixl { st with nixl_registered := st.nixl_registered ++ [engine_id] } rest
  | st, .error e :: _ => (st, some e)

/-- `handle_new_input`: drain peer metadata (when NIXL is initialized), then
drain and dispatch the INPUT channel; any `Exception` escaping the body is
latched via `_set_errored`, sent on the HEALTH channel via
`_send_unhealthy`, and re-raised (a non-`Exception` propagates untouched). -/
def handle_new_input (A : AdapterR) (st : EngineState)
    (nixl_frames : List (Except Exc String)) (input_msgs : List InputMsg) :
    EngineState × Option Exc :=
  let body :=
    match (if st.is_nixl_initialized then drainNixl st nixl_frames else (st, none)) with
    | (st1, some e) => (st1, some e)
    | (st1, none) => drainInput A st1 input_msgs
  match body with
  | (st2, none) => (st2, none)
  | (st2, some e) =>
      if e.isException then (send_unhealthy (set_errored st2 e) e, some e)
      else (st2, some e)

/-- `engine_step`: run `engine.step()`; re-raise `SystemExit` untouched;
turn an `InputProcessingError` into a per-request `RPCError` carrying its
`__cause__` and return `[]`; for any other `BaseException` latch the error,
broadcast `RPCError(request_id=None, is_engine_errored=True)` and
re-raise. -/
def engine_step (st : EngineState) (step_result : Except Exc (List RequestOutput)) :
    EngineState × Except Exc (List RequestOutput) :=
  match step_result with
  | .ok outs => (st, .ok outs)
  | .error .systemExit => (st, .error .systemExit)
  | .error (.inputProcessingError request_id cause) =>
      (send_outputs st (.rpcError ⟨some request_id, false, cause⟩), .ok [])
  | .error e =>
      (send_outputs (set_errored st e) (.rpcError ⟨none, true, e⟩), .error e)

/-- `_health_check`: if already errored, send the stored cause; then (in
either case) call `engine.check_health`, sending healthy on success; an
`Exception` from the check is latched and sent; a non-`Exception`
propagates. -/
def health_check (st : EngineState) (check_result : Except Exc Unit) :
    EngineState × Option Exc :=
  let st1 :=
    match st.errored_with with
    | some c => send_unhealthy st c
    | none => st
  let st2 := { st1 with check_health_calls := st1.check_health_calls + 1 }
  match check_result with
  | .ok _ => (send_healthy st2, none)
  | .error e =>
      if e.isException then (send_unhealthy (set_errored st2 e) e, none)
      else (st2, some e)

/-- One non-idle iteration of `run_engine_loop`: handle new input, take one
engine step, and (when async sockets are off) send the step's outputs; a
raised exception propagates and terminates the loop. -/
def engine_loop_iter (A : AdapterR) (st : EngineState)
    (nixl_frames : List (Except Exc String)) (input_msgs : List InputMsg)
    (step_result : Except Exc (List RequestOutput)) : EngineState × Option Exc :=
  match handle_new_input A st nixl_frames input_msgs with
  | (st1, some e) => (st1, some e)
  | (st1, none) =>
    match engine_step st1 step_result with
    | (st2, .error e) => (st2, some e)
    | (st2, .ok outs) =>
      if st2.use_async_sockets then (st2, none)
      else (send_outputs st2 (.requestOutputs outs), none)

/-- `RPCStartupRequest` enum (single member). -/
inductive RPCStartupRequest where
  | IS_SERVER_READY
  deriving DecidableEq

/-- `RPCStartupResponse` dataclass. -/
structure RPCStartupResponse where
  tracing_enabled : Bool
  nixl_metadata : Option String
  deriving DecidableEq

/-- The tagged union `Union[RPCStartupResponse, BaseException]` sent on the
rendezvous (data) socket. -/
inductive StartupReply where
  | startupResponse (response : RPCStartupResponse)
  | raisedException (e : Exc)
  deriving DecidableEq

/-- `run_startup_loop`: receive one frame on the data socket, decode it,
and assemble the `RPCStartupResponse` (including encoded NIXL metadata when
initialized); any exception in that `try` block becomes the response
payload.  The reply send references the local `identity`, which is bound
only when the receive succeeded: a failing receive therefore raises
`UnboundLocalError` at the send and nothing is sent (`Except.error`);
otherwise the result lists the replies sent, paired with their identity
frame. -/
def run_startup_loop (recv_result : Except Exc (String × String))
    (decode : String → Except Exc RPCStartupRequest) (is_nixl_initialized : Bool)
    (tracing_result : Except Exc Bool) (nixl_metadata_result : Except Exc String) :
    Except Exc (List (String × StartupReply)) :=
  match recv_result with
  | .error _ => .error (.unboundLocalError "identity")
  | .ok (identity, message) =>
      let response : StartupReply :=
        match decode message with
        | .error e => .raisedException e
        | .ok .IS_SERVER_READY =>
          match tracing_result with
          | .error e => .raisedException e
          | .ok tracing_enabled =>
            if is_nixl_initialized then
              match nixl_metadata_result with
              | .error e => .raisedException e
              | .ok md => .startupResponse ⟨tracing_enabled, some md⟩
            else .startupResponse ⟨tracing_enabled, none⟩
      .ok [(identity, response)]

/-- Python `int()` applied to a nonintegral number: truncation toward
zero. -/
def pyInt (q : ℚ) : ℤ := if 0 ≤ q then ⌊q⌋ else ⌈q⌉

/-- `KvMetrics` dataclass. -/
structure KvMetrics where
  request_active_slots : ℕ
  request_total_slots : ℕ
  kv_active_blocks : ℤ
  kv_total_blocks : ℕ
  num_requests_waiting : ℕ
  gpu_cache_usage_perc : ℚ
  gpu_prefix_cache_hit_rate : ℚ
  deriving DecidableEq

/-- `KvStatLogger` state: the two capacities fixed in `__init__`, the
metrics socket's closed flag, and the METRICS messages sent so far. -/
structure KvStatLogger where
  request_total_slots : ℕ
  kv_total_blocks : ℕ
  socket_closed : Bool
  sent_metrics : List KvMetrics
  deriving DecidableEq

/-- `_send_kv_metrics`: skip if the socket is closed, else pickle a
`KvMetrics` filled with the arguments and the stored totals, and send. -/
def send_kv_metrics (L : KvStatLogger) (active_slots : ℕ) (active_kv_blocks : ℤ)
    (num_requests_waiting : ℕ) (gpu_cache_usage_perc : ℚ)
    (gpu_prefix_cache_hit_rate : ℚ) : KvStatLogger :=
  if L.socket_closed then L
  else
    { L with sent_metrics := L.sent_metrics ++
        [⟨active_slots, L.request_total_slots, active_kv_blocks, L.kv_total_blocks,
          num_requests_waiting, gpu_cache_usage_perc, gpu_prefix_cache_hit_rate⟩] }

/-- `KvStatLogger.__init__`: store the two capacities and the socket, then
immediately `_send_kv_metrics(0, 0, 0, 0.0, 0.0)`. -/
def KvStatLogger.init (max_num_seqs : ℕ) (num_total_gpu_blocks : ℕ)
    (socket_closed : Bool) : KvStatLogger :=
  send_kv_metrics ⟨max_num_seqs, num_total_gpu_blocks, socket_closed, []⟩ 0 0 0 0 0

/-- The fields of the engine `Stats` object that `KvStatLogger.log`
reads. -/
structure Stats where
  num_running_sys : ℕ
  num_waiting_sys : ℕ
  gpu_cache_usage_sys : ℚ
  gpu_prefix_cache_hit_rate : ℚ
  deriving DecidableEq

/-- `KvStatLogger.log`: forward a step's statistics, scaling the GPU cache
usage fraction to whole blocks with `int(...)`. -/
def KvStatLogger.log (L : KvStatLogger) (stats : Stats) : KvStatLogger :=
  send_kv_metrics L stats.num_running_sys
    (pyInt (stats.gpu_cache_usage_sys * (L.kv_total_blocks : ℚ)))
    stats.num_waiting_sys stats.gpu_cache_usage_sys stats.gpu_prefix_cache_hit_rate

/-- `KvStatLogger.info`: a no-op. -/
def KvStatLogger.info (L : KvStatLogger) : KvStatLogger := L

/-- The operations that can act on a `KvStatLogger` over its lifetime:
the two `StatLoggerBase` methods, plus the metrics socket being closed
externally during shutdown. -/
inductive KvOp where
  | logOp (stats : Stats)
  | infoOp
  | closeSocketOp

/-- Apply one `KvOp`. -/
def applyKvOp (L : KvStatLogger) : KvOp → KvStatLogger
  | .logOp stats => L.log stats
  | .infoOp => L.info
  | .closeSocketOp => { L with socket_closed := true }

/-- Run a sequence of `KvOp`s. -/
def runKvOps : KvStatLogger → List KvOp → KvStatLogger
  | L, [] => L
  | L, op :: rest => runKvOps (applyKvOp L op) rest

/-- The operations of the `MQLLMEngine` process lifetime that touch its
state: the loop phases (input handling, engine step, health check, a whole
loop iteration) with their adapter oracles, the channel send helpers,
`_set_errored` itself, and the heartbeat socket closing on shutdown. -/
inductive EngineOp where
  | opHandleNewInput (A : AdapterR) (nixl_frames : List (Except Exc String))
      (input_msgs : List InputMsg)
  | opEngineStep (step_result : Except Exc (List RequestOutput))
  | opHealthCheck (check_result : Except Exc Unit)
  | opLoopIter (A : AdapterR) (nixl_frames : List (Except Exc String))
      (input_msgs : List InputMsg) (step_result : Except Exc (List RequestOutput))
  | opSendOutputs (outputs : Outputs)
  | opSendHealthy
  | opSendUnhealthy (error : Exc)
  | opSetErrored (error : Exc)
  | opCloseHeartbeat

/-- Apply one `EngineOp` to the state (the exception it may raise goes to
its caller and does not touch the state further). -/
def applyOp (st : EngineState) : EngineOp → EngineState
  | .opHandleNewInput A nixl_frames input_msgs =>
      (handle_new_input A st nixl_frames input_msgs).1
  | .opEngineStep step_result => (engine_step st step_result).1
  | .opHealthCheck check_result => (health_check st check_result).1
  | .opLoopIter A nixl_frames input_msgs step_result =>
      (engine_loop_iter A st nixl_frames input_msgs step_result).1
  | .opSendOutputs outputs => send_outputs st outputs
  | .opSendHealthy => send_healthy st
  | .opSendUnhealthy error => send_unhealthy st error
  | .opSetErrored error => set_errored st error
  | .opCloseHeartbeat => { st with heartbeat_closed := true }

/-- Run a sequence of `EngineOp`s. -/
def runOps : EngineState → List EngineOp → EngineState
  | st, [] => st
  | st, op :: rest => runOps (applyOp st op) rest

/-- A fresh engine state, as after `MQLLMEngine.__init__` (no error, all
channels open, nothing sent). -/
def initialEngineState : EngineState :=
  ⟨none, false, false, false, false, [], [], [], [], [], [], [], 0⟩

/-- An adapter oracle on which every engine call succeeds. -/
def okAdapter : AdapterR :=
  ⟨fun _ => .ok (), fun _ => .ok (), .ok (), .ok (), .ok true, fun _ => .ok (),
   fun _ => .ok (), .ok false⟩

@[simp]
theorem send_outputs_errored (st : EngineState) (o : Outputs) :
    (send_outputs st o).errored_with = st.errored_with := by
  unfold send_outputs; split <;> rfl

@[simp]
theorem send_healthy_errored (st : EngineState) :
    (send_healthy st).errored_with = st.errored_with := by
  unfold send_healthy; split <;> rfl

@[simp]
theorem send_unhealthy_errored (st : EngineState) (e : Exc) :
    (send_unhealthy st e).errored_with = st.errored_with := by
  unfold send_unhealthy; split <;> rfl

theorem set_errored_errored (st : EngineState) (e : Exc) :
    (set_errored st e).errored_with =
      if st.errored_with = none then some e else st.errored_with := by
  unfold set_errored; split <;> simp [*]

theorem set_errored_latched (st : EngineState) (e : Exc) (c : Exc)
    (h : st.errored_with = some c) : (set_errored st e).errored_with = some c := by
  rw [set_errored_errored, h]; simp

@[simp]
theorem handle_process_request_errored (A : AdapterR) (st : EngineState)
    (request : RPCProcessRequest) :
    (handle_process_request A st request).errored_with = st.errored_with := by
  rcases h : A.add_request request.request_id with u | e <;>
    rcases hE : st.errored_with with _ | c <;>
      cases hR : request.is_remote_prefill <;>
        simp [handle_process_request, h, hE, hR]

@[simp]
theorem handle_abort_request_errored (st : EngineState) (request_id : String) :
    (handle_abort_request st request_id).errored_with = st.errored_with := rfl

@[simp]
theorem handle_load_adapter_request_errored (A : AdapterR) (st : EngineState)
    (request : RPCLoadAdapterRequest) :
    (handle_load_adapter_request A st request).errored_with = st.errored_with := by
  unfold handle_load_adapter_request
  cases A.add_lora request.request_id <;> simp

@[simp]
theorem dispatchInput_errored (A : AdapterR) (st : EngineState) (msg : InputMsg) :
    (dispatchInput A st msg).1.errored_with = st.errored_with := by
  cases msg with
  | processRequest request => simp [dispatchInput]
  | abortRequest request_id => rfl
  | startProfileRequest => rcases h : A.start_profile with u | e <;> simp [dispatchInput, h]
  | stopProfileRequest => rcases h : A.stop_profile with u | e <;> simp [dispatchInput, h]
  | loadAdapterRequest request => simp [dispatchInput]
  | resetPrefixCacheRequest =>
      rcases h : A.reset_prefix_cache with b | e <;> simp [dispatchInput, h]
  | sleepRequest level => rcases h : A.sleep level with u | e <;> simp [dispatchInput, h]
  | wakeUpRequest tags => rcases h : A.wake_up tags with u | e <;> simp [dispatchInput, h]
  | isSleepingRequest request_id =>
      rcases h : A.is_sleeping with b | e <;>
        simp [dispatchInput, handle_is_sleeping_request, h]
  | unknownRequest type_name => rfl

@[simp]
theorem drainInput_errored (A : AdapterR) (st : EngineState) (msgs : List InputMsg) :
    (drainInput A st msgs).1.errored_with = st.errored_with := by
  induction msgs generalizing st with
  | nil => rfl
  | cons msg rest ih =>
    rw [drainInput]
    rcases h : dispatchInput A st msg with ⟨st2, e⟩
    have he : st2.errored_with = st.errored_with := by
      have h2 := dispatchInput_errored A st msg
      rw [h] at h2; exact h2
    cases e with
    | none => rw [← he]; exact ih st2
    | some ex => exact he

@[simp]
theorem drainNixl_errored (st : EngineState) (frames : List (Except Exc String)) :
    (drainNixl st frames).1.errored_with = st.errored_with := by
  induction frames generalizing st with
  | nil => rfl
  | cons f rest ih =>
    cases f with
    | ok engine_id => exact ih _
    | error e => rfl

theorem handle_new_input_latched (A : AdapterR) (st : EngineState)
    (nixl_frames : List (Except Exc String)) (input_msgs : List InputMsg) (c : Exc)
    (h : st.errored_with = some c) :
    (handle_new_input A st nixl_frames input_msgs).1.errored_with = some c := by
  rw [handle_new_input]
  rcases hd : (if st.is_nixl_initialized then drainNixl st nixl_frames else (st, none))
    with ⟨st1, e1⟩
  have h1 : st1.errored_with = some c := by
    split at hd
    · have h2 := drainNixl_errored st nixl_frames
      rw [hd] at h2; rw [h2]; exact h
    · cases hd; exact h
  cases e1 with
  | some e =>
    simp only []
    cases he : e.isException <;> simp [he, set_errored_latched _ _ _ h1, h1]
  | none =>
    rcases hb : drainInput A st1 input_msgs with ⟨st2, e2⟩
    have h2 : st2.errored_with = some c := by
      have h3 := drainInput_errored A st1 input_msgs
      rw [hb] at h3; rw [h3]; exact h1
    cases e2 with
    | some e =>
      simp only [hb]
      cases he : e.isException <;> simp [he, set_errored_latched _ _ _ h2, h2]
    | none => simpa [hb] using h2

theorem engine_step_latched (st : EngineState)
    (step_result : Except Exc (List RequestOutput)) (c : Exc)
    (h : st.errored_with = some c) :
    (engine_step st step_result).1.errored_with = some c := by
  rcases step_result with e | outs
  · cases e <;> simp [engine_step, set_errored_latched _ _ _ h, h]
  · exact h

theorem health_check_latched (st : EngineState) (check_result : Except Exc Unit)
    (c : Exc) (h : st.errored_with = some c) :
    (health_check st check_result).1.errored_with = some c := by
  unfold health_check
  rcases check_result with e | u
  · cases he : e.isException <;>
      simp [he, h, set_errored_errored]
  · simp [h]

theorem engine_loop_iter_latched (A : AdapterR) (st : EngineState)
    (nixl_frames : List (Except Exc String)) (input_msgs : List InputMsg)
    (step_result : Except Exc (List RequestOutput)) (c : Exc)
    (h : st.errored_with = some c) :
    (engine_loop_iter A st nixl_frames input_msgs step_result).1.errored_with = some c := by
  rw [engine_loop_iter]
  rcases hh : handle_new_input A st nixl_frames input_msgs with ⟨st1, e1⟩
  have h1 : st1.errored_with = some c := by
    have h2 := handle_new_input_latched A st nixl_frames input_msgs c h
    rw [hh] at h2; exact h2
  cases e1 with
  | some e => exact h1
  | none =>
    rcases hs : engine_step st1 step_result with ⟨st2, r⟩
    have h2 : st2.errored_with = some c := by
      have h3 := engine_step_latched st1 step_result c h1
      rw [hs] at h3; exact h3
    simp only [hs]
    cases r with
    | error e => exact h2
    | ok outs => cases hu : st2.use_async_sockets <;> simp [hu, h2]

theorem applyOp_latched (st : EngineState) (op : EngineOp) (c : Exc)
    (h : st.errored_with = some c) : (applyOp st op).errored_with = some c := by
  cases op with
  | opHandleNewInput A nixl_frames input_msgs =>
      exact handle_new_input_latched A st nixl_frames input_msgs c h
  | opEngineStep step_result => exact engine_step_latched st step_result c h
  | opHealthCheck check_result => exact health_check_latched st check_result c h
  | opLoopIter A nixl_frames input_msgs step_result =>
      exact engine_loop_iter_latched A st nixl_frames input_msgs step_result c h
  | opSendOutputs outputs => exact (send_outputs_errored st outputs).trans h
  | opSendHealthy => exact (send_healthy_errored st).trans h
  | opSendUnhealthy error => exact (send_unhealthy_errored st error).trans h
  | opSetErrored error => exact set_errored_latched st error c h
  | opCloseHeartbeat => exact h

@[simp]
theorem set_errored_output (st : EngineState) (e : Exc) :
    (set_errored st e).output_msgs = st.output_msgs := by
  unfold set_errored; split <;> rfl

@[simp]
theorem set_errored_health (st : EngineState) (e : Exc) :
    (set_errored st e).health_msgs = st.health_msgs := by
  unfold set_errored; split <;> rfl

@[simp]
theorem set_errored_heartbeat (st : EngineState) (e : Exc) :
    (set_errored st e).heartbeat_closed = st.heartbeat_closed := by
  unfold set_errored; split <;> rfl

@[simp]
theorem set_errored_ray (st : EngineState) (e : Exc) :
    (set_errored st e).ray_present = st.ray_present := by
  unfold set_errored; split <;> rfl

@[simp]
theorem set_errored_calls (st : EngineState) (e : Exc) :
    (set_errored st e).check_health_calls = st.check_health_calls := by
  unfold set_errored; split <;> rfl

@[simp]
theorem send_outputs_health (st : EngineState) (o : Outputs) :
    (send_outputs st o).health_msgs = st.health_msgs := by
  unfold send_outputs; split <;> rfl

@[simp]
theorem send_outputs_heartbeat (st : EngineState) (o : Outputs) :
    (send_outputs st o).heartbeat_closed = st.heartbeat_closed := by
  unfold send_outputs; split <;> rfl

@[simp]
theorem send_outputs_aborted (st : EngineState) (o : Outputs) :
    (send_outputs st o).aborted_requests = st.aborted_requests := by
  unfold send_outputs; split <;> rfl

@[simp]
theorem send_outputs_attempts (st : EngineState) (o : Outputs) :
    (send_outputs st o).add_request_attempts = st.add_request_attempts := by
  unfold send_outputs; split <;> rfl

@[simp]
theorem send_outputs_added (st : EngineState) (o : Outputs) :
    (send_outputs st o).add_request_added = st.add_request_added := by
  unfold send_outputs; split <;> rfl

@[simp]
theorem send_outputs_ray (st : EngineState) (o : Outputs) :
    (send_outputs st o).ray_present = st.ray_present := by
  unfold send_outputs; split <;> rfl

@[simp]
theorem send_unhealthy_output (st : EngineState) (e : Exc) :
    (send_unhealthy st e).output_msgs = st.output_msgs := by
  unfold send_unhealthy; split <;> rfl

@[simp]
theorem send_unhealthy_heartbeat (st : EngineState) (e : Exc) :
    (send_unhealthy st e).heartbeat_closed = st.heartbeat_closed := by
  unfold send_unhealthy; split <;> rfl

@[simp]
theorem send_unhealthy_calls (st : EngineState) (e : Exc) :
    (send_unhealthy st e).check_health_calls = st.check_health_calls := by
  unfold send_unhealthy; split <;> rfl

@[simp]
theorem send_healthy_output (st : EngineState) :
    (send_healthy st).output_msgs = st.output_msgs := by
  unfold send_healthy; split <;> rfl

@[simp]
theorem send_healthy_calls (st : EngineState) :
    (send_healthy st).check_health_calls = st.check_health_calls := by
  unfold send_healthy; split <;> rfl

@[simp]
theorem send_healthy_heartbeat (st : EngineState) :
    (send_healthy st).heartbeat_closed = st.heartbeat_closed := by
  unfold send_healthy; split <;> rfl

theorem send_unhealthy_health_open (st : EngineState) (e : Exc)
    (h : st.heartbeat_closed = false) :
    (send_unhealthy st e).health_msgs = st.health_msgs ++ [HealthMsg.unhealthy e] := by
  simp [send_unhealthy, h]

theorem send_healthy_health_open (st : EngineState) (h : st.heartbeat_closed = false) :
    (send_healthy st).health_msgs = st.health_msgs ++ [HealthMsg.healthy] := by
  simp [send_healthy, h]

theorem unwrapRay_rpcError (b : Bool) (err : RPCError) :
    ∃ ex, unwrapRayError b (Outputs.rpcError err) =
      Outputs.rpcError ⟨err.request_id, err.is_engine_errored, ex⟩ := by
  cases b with
  | false => exact ⟨err.exception, rfl⟩
  | true =>
    rcases err with ⟨rid, flag, ex⟩
    cases ex <;> exact ⟨_, rfl⟩

theorem send_outputs_rpcError (st : EngineState) (err : RPCError) :
    ∃ ex, (send_outputs st (Outputs.rpcError err)).output_msgs =
      st.output_msgs ++ [Outputs.rpcError ⟨err.request_id, err.is_engine_errored, ex⟩] := by
  obtain ⟨ex, hex⟩ := unwrapRay_rpcError st.ray_present err
  exact ⟨ex, by simp [send_outputs, Outputs.isTruthy, hex]⟩

theorem handle_new_input_nil (A : AdapterR) (st : EngineState) :
    handle_new_input A st [] [] = (st, none) := by
  unfold handle_new_input
  cases h : st.is_nixl_initialized <;> simp [h, drainNixl, drainInput]

/-- A state in which the error flag is already latched with a first cause. -/
def latchedEngineState : EngineState :=
  { initialEngineState with errored_with := some (Exc.otherException "boom0") }

/-- Claim C1: the engine error flag is a set-once latch: across every
sequence of operations on an `MQLLMEngine`, once `_errored_with` holds a
first cause it never reverts to unset and never changes to a different
exception — in particular a later `_set_errored` with a different exception
leaves the stored cause unchanged. -/
theorem claim_C1_errored_latch (st : EngineState) (c : Exc) (ops : List EngineOp)
    (h : st.errored_with = some c) : (runOps st ops).errored_with = some c := by
  induction ops generalizing st with
  | nil => exact h
  | cons op rest ih => exact ih (applyOp st op) (applyOp_latched st op c h)

theorem claim_C1_witness :
    latchedEngineState.errored_with = some (Exc.otherException "boom0") ∧
    (runOps latchedEngineState
        [EngineOp.opSetErrored (Exc.valueError "later"),
         EngineOp.opHealthCheck (Except.ok ()),
         EngineOp.opEngineStep (Except.error (Exc.otherException "boom2"))]).errored_with =
      some (Exc.otherException "boom0") :=
  ⟨rfl, claim_C1_errored_latch latchedEngineState (Exc.otherException "boom0") _ rfl⟩

/-- Claim C7: the first METRICS message, emitted already at construction
of the KV stat publisher, is the zeroed snapshot whose totals are the two
configured capacities. -/
theorem claim_C7_first_metrics (max_num_seqs : ℕ) (num_total_gpu_blocks : ℕ) :
    (KvStatLogger.init max_num_seqs num_total_gpu_blocks false).sent_metrics =
      [⟨0, max_num_seqs, 0, num_total_gpu_blocks, 0, 0, 0⟩] := rfl

/-- Claim C8: a `SystemExit` escaping `engine.step()` is re-raised
immediately: the state is untouched (no latch, no OUTPUT message). -/
theorem claim_C8_system_exit (st : EngineState) :
    engine_step st (Except.error Exc.systemExit) = (st, Except.error Exc.systemExit) := rfl

/-- The invariant behind claim C10: the stored totals equal the
construction capacities, and so do the totals of every message sent. -/
def KvInvariant (m : ℕ) (n : ℕ) (L : KvStatLogger) : Prop :=
  L.request_total_slots = m ∧ L.kv_total_blocks = n ∧
    ∀ msg ∈ L.sent_metrics, msg.request_total_slots = m ∧ msg.kv_total_blocks = n

theorem kv_init_invariant (m : ℕ) (n : ℕ) (closed : Bool) :
    KvInvariant m n (KvStatLogger.init m n closed) := by
  unfold KvStatLogger.init send_kv_metrics KvInvariant
  cases closed <;> simp

theorem applyKvOp_invariant (m : ℕ) (n : ℕ) (L : KvStatLogger) (op : KvOp)
    (h : KvInvariant m n L) : KvInvariant m n (applyKvOp L op) := by
  obtain ⟨h1, h2, h3⟩ := h
  cases op with
  | logOp stats =>
      show KvInvariant m n (send_kv_metrics L _ _ _ _ _)
      unfold send_kv_metrics
      split
      · exact ⟨h1, h2, h3⟩
      · refine ⟨h1, h2, ?_⟩
        intro msg hmsg
        simp only [List.mem_append, List.mem_singleton] at hmsg
        rcases hmsg with hmsg | hmsg
        · exact h3 msg hmsg
        · subst hmsg; exact ⟨h1, h2⟩
  | infoOp => exact ⟨h1, h2, h3⟩
  | closeSocketOp => exact ⟨h1, h2, h3⟩

theorem runKvOps_invariant (m : ℕ) (n : ℕ) (L : KvStatLogger) (ops : List KvOp)
    (h : KvInvariant m n L) : KvInvariant m n (runKvOps L ops) := by
  induction ops generalizing L with
  | nil => exact h
  | cons op rest ih => exact ih (applyKvOp L op) (applyKvOp_invariant m n L op h)

/-- Claim C10: every KvMetrics message the publisher ever emits — after any
sequence of operations on it — carries `request_total_slots` and
`kv_total_blocks` equal to the capacities fixed at construction, and the
stored capacities themselves never change. -/
theorem claim_C10_totals_invariant (max_num_seqs : ℕ) (num_total_gpu_blocks : ℕ)
    (socket_closed : Bool) (ops : List KvOp) (msg : KvMetrics)
    (hmem : msg ∈ (runKvOps (KvStatLogger.init max_num_seqs num_total_gpu_blocks
        socket_closed) ops).sent_metrics) :
    msg.request_total_slots = max_num_seqs ∧ msg.kv_total_blocks = num_total_gpu_blocks := by
  obtain ⟨h1, h2, h3⟩ := runKvOps_invariant max_num_seqs num_total_gpu_blocks _ ops
    (kv_init_invariant max_num_seqs num_total_gpu_blocks socket_closed)
  exact h3 msg hmem

theorem claim_C10_witness :
    (⟨0, 2, 0, 3, 0, 0, 0⟩ : KvMetrics) ∈
      (runKvOps (KvStatLogger.init 2 3 false) [KvOp.infoOp]).sent_metrics ∧
    (⟨0, 2, 0, 3, 0, 0, 0⟩ : KvMetrics).request_total_slots = 2 ∧
    (⟨0, 2, 0, 3, 0, 0, 0⟩ : KvMetrics).kv_total_blocks = 3 := by
  refine ⟨by decide, ?_, ?_⟩
  · exact (claim_C10_totals_invariant 2 3 false [KvOp.infoOp] _ (by decide)).1
  · exact (claim_C10_totals_invariant 2 3 false [KvOp.infoOp] _ (by decide)).2

/-- Claim C2 counterexample: `SystemExit` is an exception escaping the
step that is not an input-processing error, yet `engine_step` re-raises it
with the error flag unlatched and no Error broadcast on the OUTPUT
channel. -/
theorem claim_C2_counterexample :
    Exc.isInputProcessingError Exc.systemExit = false ∧
    (engine_step initialEngineState (Except.error Exc.systemExit)).1.errored_with = none ∧
    (engine_step initialEngineState (Except.error Exc.systemExit)).1.output_msgs = [] ∧
    (engine_step initialEngineState (Except.error Exc.systemExit)).2 =
      Except.error Exc.systemExit :=
  ⟨rfl, rfl, rfl, rfl⟩

/-- Claim C2 as amended: for every exception escaping the step other than
an `InputProcessingError` and other than `SystemExit`, `engine_step`
latches the error flag (first cause wins), sends exactly one broadcast
Error output with `request_id = none` and `is_engine_errored = true` on the
OUTPUT channel, and re-raises the exception, so the control loop iteration
unwinds. -/
theorem claim_C2_fatal_step (st : EngineState) (e : Exc)
    (h1 : e.isSystemExit = false) (h2 : e.isInputProcessingError = false) :
    (engine_step st (Except.error e)).1.errored_with =
      (if st.errored_with = none then some e else st.errored_with) ∧
    (∃ ex, (engine_step st (Except.error e)).1.output_msgs =
      st.output_msgs ++ [Outputs.rpcError ⟨none, true, ex⟩]) ∧
    (engine_step st (Except.error e)).2 = Except.error e ∧
    (∀ A : AdapterR, (engine_loop_iter A st [] [] (Except.error e)).2 = some e) := by
  have hstep : engine_step st (Except.error e) =
      (send_outputs (set_errored st e) (Outputs.rpcError ⟨none, true, e⟩),
       Except.error e) := by
    cases e <;> try rfl
    · simp [Exc.isSystemExit] at h1
    · simp [Exc.isInputProcessingError] at h2
  refine ⟨?_, ?_, ?_, ?_⟩
  · rw [hstep]
    simp [set_errored_errored]
  · obtain ⟨ex, hex⟩ := send_outputs_rpcError (set_errored st e)
      ⟨none, true, e⟩
    refine ⟨ex, ?_⟩
    rw [hstep]
    simp only [hex, set_errored_output]
  · rw [hstep]
  · intro A
    rw [engine_loop_iter, handle_new_input_nil]
    simp [hstep]

theorem claim_C2_witness :
    Exc.isSystemExit (Exc.valueError "boom") = false ∧
    Exc.isInputProcessingError (Exc.valueError "boom") = false ∧
    ((engine_step initialEngineState (Except.error (Exc.valueError "boom"))).1.errored_with =
        (if initialEngineState.errored_with = none then some (Exc.valueError "boom")
         else initialEngineState.errored_with) ∧
      (∃ ex, (engine_step initialEngineState
          (Except.error (Exc.valueError "boom"))).1.output_msgs =
        initialEngineState.output_msgs ++ [Outputs.rpcError ⟨none, true, ex⟩]) ∧
      (engine_step initialEngineState (Except.error (Exc.valueError "boom"))).2 =
        Except.error (Exc.valueError "boom") ∧
      (∀ A : AdapterR,
        (engine_loop_iter A initialEngineState [] []
          (Except.error (Exc.valueError "boom"))).2 = some (Exc.valueError "boom"))) :=
  ⟨rfl, rfl, claim_C2_fatal_step initialEngineState (Exc.valueError "boom") rfl rfl⟩

theorem handle_new_input_unknown (A : AdapterR) (st : EngineState) (type_name : String) :
    handle_new_input A st [] [InputMsg.unknownRequest type_name] =
      (send_unhealthy
        (set_errored st (Exc.valueError ("Unknown RPCRequest Type: " ++ type_name)))
        (Exc.valueError ("Unknown RPCRequest Type: " ++ type_name)),
       some (Exc.valueError ("Unknown RPCRequest Type: " ++ type_name))) := by
  unfold handle_new_input
  cases hn : st.is_nixl_initialized <;>
    simp [hn, drainNixl, drainInput, dispatchInput, Exc.isException]

/-- Claim C3 counterexample: on an unrecognized INPUT tag the engine latches
and re-raises, but it publishes nothing on the OUTPUT channel — the
exception goes to the HEALTH channel instead, so the unknown tag is not
treated identically to a fatal engine step error. -/
theorem claim_C3_counterexample :
    (handle_new_input okAdapter initialEngineState []
        [InputMsg.unknownRequest "Foo"]).1.output_msgs = [] ∧
    (handle_new_input okAdapter initialEngineState []
        [InputMsg.unknownRequest "Foo"]).1.errored_with =
      some (Exc.valueError ("Unknown RPCRequest Type: " ++ "Foo")) ∧
    (handle_new_input okAdapter initialEngineState []
        [InputMsg.unknownRequest "Foo"]).1.health_msgs =
      [HealthMsg.unhealthy (Exc.valueError ("Unknown RPCRequest Type: " ++ "Foo"))] ∧
    (handle_new_input okAdapter initialEngineState []
        [InputMsg.unknownRequest "Foo"]).2 =
      some (Exc.valueError ("Unknown RPCRequest Type: " ++ "Foo")) :=
  ⟨rfl, rfl, rfl, rfl⟩

/-- Claim C3 as amended: an unrecognized INPUT tag raises a `ValueError`
that is latched (first cause wins) and sent on the HEALTH channel (when the
heartbeat socket is open) — not broadcast on the OUTPUT channel — and the
exception re-raises so the control loop unwinds. -/
theorem claim_C3_unknown_tag (A : AdapterR) (st : EngineState) (type_name : String)
    (hopen : st.heartbeat_closed = false) :
    (handle_new_input A st [] [InputMsg.unknownRequest type_name]).2 =
      some (Exc.valueError ("Unknown RPCRequest Type: " ++ type_name)) ∧
    (handle_new_input A st [] [InputMsg.unknownRequest type_name]).1.errored_with =
      (if st.errored_with = none
       then some (Exc.valueError ("Unknown RPCRequest Type: " ++ type_name))
       else st.errored_with) ∧
    (handle_new_input A st [] [InputMsg.unknownRequest type_name]).1.health_msgs =
      st.health_msgs ++
        [HealthMsg.unhealthy (Exc.valueError ("Unknown RPCRequest Type: " ++ type_name))] ∧
    (handle_new_input A st [] [InputMsg.unknownRequest type_name]).1.output_msgs =
      st.output_msgs ∧
    (∀ step_result,
      (engine_loop_iter A st [] [InputMsg.unknownRequest type_name] step_result).2 =
        some (Exc.valueError ("Unknown RPCRequest Type: " ++ type_name))) := by
  refine ⟨?_, ?_, ?_, ?_, ?_⟩
  · rw [handle_new_input_unknown]
  · rw [handle_new_input_unknown]
    simp [set_errored_errored]
  · rw [handle_new_input_unknown]
    simp only []
    rw [send_unhealthy_health_open _ _ (by simp [hopen])]
    simp
  · rw [handle_new_input_unknown]
    simp
  · intro step_result
    simp [engine_loop_iter, handle_new_input_unknown]

theorem claim_C3_witness :
    initialEngineState.heartbeat_closed = false ∧
    ((handle_new_input okAdapter initialEngineState []
        [InputMsg.unknownRequest "Bar"]).2 =
      some (Exc.valueError ("Unknown RPCRequest Type: " ++ "Bar")) ∧
    (handle_new_input okAdapter initialEngineState []
        [InputMsg.unknownRequest "Bar"]).1.errored_with =
      (if initialEngineState.errored_with = none
       then some (Exc.valueError ("Unknown RPCRequest Type: " ++ "Bar"))
       else initialEngineState.errored_with) ∧
    (handle_new_input okAdapter initialEngineState []
        [InputMsg.unknownRequest "Bar"]).1.health_msgs =
      initialEngineState.health_msgs ++
        [HealthMsg.unhealthy (Exc.valueError ("Unknown RPCRequest Type: " ++ "Bar"))] ∧
    (handle_new_input okAdapter initialEngineState []
        [InputMsg.unknownRequest "Bar"]).1.output_msgs =
      initialEngineState.output_msgs ∧
    (∀ step_result,
      (engine_loop_iter okAdapter initialEngineState []
        [InputMsg.unknownRequest "Bar"] step_result).2 =
        some (Exc.valueError ("Unknown RPCRequest Type: " ++ "Bar")))) :=
  ⟨rfl, claim_C3_unknown_tag okAdapter initialEngineState "Bar" rfl⟩

/-- Claim C4 counterexample: with the flag latched and a healthy adapter,
one probe sends the stored cause and then still invokes
`engine.check_health` and sends a second (healthy) message — the probe is
neither Adapter-free nor single-message as claimed. -/
theorem claim_C4_counterexample :
    latchedEngineState.errored_with = some (Exc.otherException "boom0") ∧
    (health_check latchedEngineState (Except.ok ())).1.health_msgs =
      [HealthMsg.unhealthy (Exc.otherException "boom0"), HealthMsg.healthy] ∧
    (health_check latchedEngineState (Except.ok ())).1.check_health_calls = 1 :=
  ⟨rfl, rfl, rfl⟩

/-- Claim C4 as amended: after latching, every probe first reports the
stored cause on the HEALTH channel, then still re-invokes the Adapter's
`check_health` and emits one more health message (healthy on success, the
newly raised exception on failure); the stored cause itself never
changes. -/
theorem claim_C4_probe_after_latch (st : EngineState) (c : Exc)
    (check_result : Except Exc Unit)
    (hlatch : st.errored_with = some c) (hopen : st.heartbeat_closed = false)
    (hexc : ∀ e, check_result = Except.error e → e.isException = true) :
    (health_check st check_result).1.errored_with = some c ∧
    (health_check st check_result).1.check_health_calls = st.check_health_calls + 1 ∧
    (health_check st check_result).1.health_msgs =
      st.health_msgs ++ [HealthMsg.unhealthy c] ++
        (match check_result with
         | Except.ok _ => [HealthMsg.healthy]
         | Except.error e => [HealthMsg.unhealthy e]) ∧
    (health_check st check_result).2 = none := by
  unfold health_check
  rcases check_result with e | u
  · have he : e.isException = true := hexc e rfl
    refine ⟨?_, ?_, ?_, ?_⟩ <;>
      simp [hlatch, hopen, he, set_errored_errored,
        send_unhealthy_health_open, send_unhealthy_health_open _ _ hopen]
  · refine ⟨?_, ?_, ?_, ?_⟩ <;>
      simp [hlatch, hopen, send_healthy_health_open,
        send_unhealthy_health_open _ _ hopen]

theorem claim_C4_witness :
    latchedEngineState.errored_with = some (Exc.otherException "boom0") ∧
    latchedEngineState.heartbeat_closed = false ∧
    ((health_check latchedEngineState (Except.ok ())).1.errored_with =
        some (Exc.otherException "boom0") ∧
      (health_check latchedEngineState (Except.ok ())).1.check_health_calls =
        latchedEngineState.check_health_calls + 1 ∧
      (health_check latchedEngineState (Except.ok ())).1.health_msgs =
        latchedEngineState.health_msgs ++
          [HealthMsg.unhealthy (Exc.otherException "boom0")] ++ [HealthMsg.healthy] ∧
      (health_check latchedEngineState (Except.ok ())).2 = none) :=
  ⟨rfl, rfl, claim_C4_probe_after_latch latchedEngineState (Exc.otherException "boom0")
    (Except.ok ()) rfl rfl (fun _ h => nomatch h)⟩

/-- The exception an `RPCError` carries after `_send_outputs`'s ray
unwrapping step. -/
def unwrappedException (ray_present : Bool) (e : Exc) : Exc :=
  if ray_present then
    match e with
    | .rayTaskError cause => cause
    | _ => e
  else e

theorem send_outputs_rpcError_eq (st : EngineState) (err : RPCError) :
    (send_outputs st (Outputs.rpcError err)).output_msgs =
      st.output_msgs ++ [Outputs.rpcError ⟨err.request_id, err.is_engine_errored,
        unwrappedException st.ray_present err.exception⟩] := by
  rcases err with ⟨rid, flag, ex⟩
  cases hb : st.ray_present <;> cases ex <;>
    simp [send_outputs, Outputs.isTruthy, unwrapRayError, unwrappedException, hb]

/-- An adapter oracle on which request admission fails. -/
def failAdapter : AdapterR :=
  { okAdapter with add_request := fun _ => .error (Exc.valueError "bad request") }

/-- Claim C5: when the engine is not errored and admitting a
`ProcessRequest` raises, the gateway sends exactly one Error carrying that
request id with `is_engine_errored = false`, does not latch the flag,
aborts the request, and the dispatch pass raises nothing (the loop
continues). -/
theorem claim_C5_per_request_input_error (A : AdapterR) (st : EngineState)
    (request : RPCProcessRequest) (e : Exc)
    (hnoerr : st.errored_with = none)
    (hfail : A.add_request request.request_id = Except.error e) :
    (dispatchInput A st (InputMsg.processRequest request)).2 = none ∧
    (dispatchInput A st (InputMsg.processRequest request)).1.errored_with = none ∧
    (∃ ex, (dispatchInput A st (InputMsg.processRequest request)).1.output_msgs =
      st.output_msgs ++ [Outputs.rpcError ⟨some request.request_id, false, ex⟩]) ∧
    (dispatchInput A st (InputMsg.processRequest request)).1.aborted_requests =
      st.aborted_requests ++ [request.request_id] := by
  refine ⟨rfl, ?_, ?_, ?_⟩
  · show (handle_process_request A st request).errored_with = none
    rw [handle_process_request_errored]; exact hnoerr
  · show ∃ ex, (handle_process_request A st request).output_msgs =
      st.output_msgs ++ [Outputs.rpcError ⟨some request.request_id, false, ex⟩]
    refine ⟨unwrappedException st.ray_present e, ?_⟩
    cases hr : request.is_remote_prefill <;>
      simp [handle_process_request, hnoerr, hfail, hr, send_outputs_rpcError_eq]
  · show (handle_process_request A st request).aborted_requests =
      st.aborted_requests ++ [request.request_id]
    cases hr : request.is_remote_prefill <;>
      simp [handle_process_request, hnoerr, hfail, hr]

theorem claim_C5_witness :
    initialEngineState.errored_with = none ∧
    failAdapter.add_request "r1" = Except.error (Exc.valueError "bad request") ∧
    ((dispatchInput failAdapter initialEngineState
        (InputMsg.processRequest ⟨"r1", false⟩)).2 = none ∧
      (dispatchInput failAdapter initialEngineState
        (InputMsg.processRequest ⟨"r1", false⟩)).1.errored_with = none ∧
      (∃ ex, (dispatchInput failAdapter initialEngineState
          (InputMsg.processRequest ⟨"r1", false⟩)).1.output_msgs =
        initialEngineState.output_msgs ++
          [Outputs.rpcError ⟨some ("r1" : String), false, ex⟩]) ∧
      (dispatchInput failAdapter initialEngineState
        (InputMsg.processRequest ⟨"r1", false⟩)).1.aborted_requests =
        initialEngineState.aborted_requests ++ ["r1"]) :=
  ⟨rfl, rfl, claim_C5_per_request_input_error failAdapter initialEngineState
    ⟨"r1", false⟩ (Exc.valueError "bad request") rfl rfl⟩

/-- Claim C9: a `ProcessRequest` handled while the flag is latched first
gets an Error with its request id, `is_engine_errored = true` and an
engine-dead exception wrapping the stored cause, and the gateway still
proceeds to attempt admission (no early return), so further OUTPUT
messages for the same id may follow. -/
theorem claim_C9_process_request_after_latch (A : AdapterR) (st : EngineState)
    (request : RPCProcessRequest) (c : Exc)
    (hlatch : st.errored_with = some c) :
    (dispatchInput A st (InputMsg.processRequest request)).2 = none ∧
    (∃ rest, (dispatchInput A st (InputMsg.processRequest request)).1.output_msgs =
      st.output_msgs ++
        [Outputs.rpcError ⟨some request.request_id, true, Exc.mqEngineDead c⟩] ++ rest) ∧
    (dispatchInput A st (InputMsg.processRequest request)).1.add_request_attempts =
      st.add_request_attempts ++ [request.request_id] ∧
    (∀ u : Unit, A.add_request request.request_id = Except.ok u →
      (dispatchInput A st (InputMsg.processRequest request)).1.add_request_added =
        st.add_request_added ++ [request.request_id]) := by
  have hdead : unwrappedException st.ray_present (Exc.mqEngineDead c) =
      Exc.mqEngineDead c := by
    cases st.ray_present <;> rfl
  refine ⟨rfl, ?_, ?_, ?_⟩
  · show ∃ rest, (handle_process_request A st request).output_msgs =
      st.output_msgs ++
        [Outputs.rpcError ⟨some request.request_id, true, Exc.mqEngineDead c⟩] ++ rest
    rcases ha : A.add_request request.request_id with e | u
    · refine ⟨[Outputs.rpcError ⟨some request.request_id, true,
        unwrappedException st.ray_present e⟩], ?_⟩
      cases hr : request.is_remote_prefill <;>
        simp [handle_process_request, hlatch, ha, hr, send_outputs_rpcError_eq,
          ENGINE_DEAD_ERROR, hdead]
    · refine ⟨[], ?_⟩
      cases hr : request.is_remote_prefill <;>
        simp [handle_process_request, hlatch, ha, hr, send_outputs_rpcError_eq,
          ENGINE_DEAD_ERROR, hdead]
  · show (handle_process_request A st request).add_request_attempts =
      st.add_request_attempts ++ [request.request_id]
    rcases ha : A.add_request request.request_id with e | u <;>
      cases hr : request.is_remote_prefill <;>
        simp [handle_process_request, hlatch, ha, hr]
  · intro u ha
    show (handle_process_request A st request).add_request_added =
      st.add_request_added ++ [request.request_id]
    cases hr : request.is_remote_prefill <;>
      simp [handle_process_request, hlatch, ha, hr]

theorem claim_C9_witness :
    latchedEngineState.errored_with = some (Exc.otherException "boom0") ∧
    ((dispatchInput okAdapter latchedEngineState
        (InputMsg.processRequest ⟨"r2", false⟩)).2 = none ∧
      (∃ rest, (dispatchInput okAdapter latchedEngineState
          (InputMsg.processRequest ⟨"r2", false⟩)).1.output_msgs =
        latchedEngineState.output_msgs ++
          [Outputs.rpcError ⟨some ("r2" : String), true,
            Exc.mqEngineDead (Exc.otherException "boom0")⟩] ++ rest) ∧
      (dispatchInput okAdapter latchedEngineState
          (InputMsg.processRequest ⟨"r2", false⟩)).1.add_request_attempts =
        latchedEngineState.add_request_attempts ++ ["r2"] ∧
      (∀ u : Unit, okAdapter.add_request "r2" = Except.ok u →
        (dispatchInput okAdapter latchedEngineState
            (InputMsg.processRequest ⟨"r2", false⟩)).1.add_request_added =
          latchedEngineState.add_request_added ++ ["r2"])) :=
  ⟨rfl, claim_C9_process_request_after_latch okAdapter latchedEngineState
    ⟨"r2", false⟩ (Exc.otherException "boom0") rfl⟩

/-- A decode oracle that always yields the `IS_SERVER_READY` query. -/
def decodeIsServerReady : String → Except Exc RPCStartupRequest :=
  fun _ => .ok .IS_SERVER_READY

/-- A decode oracle on which unpickling the query raises. -/
def decodeFail : String → Except Exc RPCStartupRequest :=
  fun _ => .error (Exc.valueError "bad pickle")

/-- Claim C6 counterexample: when the receive on the rendezvous socket
itself raises, the local `identity` is never bound, so the reply send
raises `UnboundLocalError` and no reply at all is sent — not "exactly one
reply" carrying the exception. -/
theorem claim_C6_counterexample :
    run_startup_loop (Except.error (Exc.otherException "recv failed"))
        decodeIsServerReady false (Except.ok false) (Except.ok "") =
      Except.error (Exc.unboundLocalError "identity") := rfl

/-- Claim C6 as amended: once the query frame has been received, exactly
one reply is sent per connection, and any exception raised while decoding
the query or assembling the `StartupResponse` becomes the reply payload
itself; only a failure of the receive itself sends nothing (the reply send
raises `UnboundLocalError`). -/
theorem claim_C6_startup_reply (identity : String) (message : String)
    (decode : String → Except Exc RPCStartupRequest) (is_nixl_initialized : Bool)
    (tracing_result : Except Exc Bool) (nixl_metadata_result : Except Exc String) :
    (∃ reply, run_startup_loop (Except.ok (identity, message)) decode
        is_nixl_initialized tracing_result nixl_metadata_result =
      Except.ok [(identity, reply)]) ∧
    (∀ e, decode message = Except.error e →
      run_startup_loop (Except.ok (identity, message)) decode
          is_nixl_initialized tracing_result nixl_metadata_result =
        Except.ok [(identity, StartupReply.raisedException e)]) ∧
    (∀ e, decode message = Except.ok RPCStartupRequest.IS_SERVER_READY →
      tracing_result = Except.error e →
      run_startup_loop (Except.ok (identity, message)) decode
          is_nixl_initialized tracing_result nixl_metadata_result =
        Except.ok [(identity, StartupReply.raisedException e)]) ∧
    (∀ e t, decode message = Except.ok RPCStartupRequest.IS_SERVER_READY →
      tracing_result = Except.ok t → is_nixl_initialized = true →
      nixl_metadata_result = Except.error e →
      run_startup_loop (Except.ok (identity, message)) decode
          is_nixl_initialized tracing_result nixl_metadata_result =
        Except.ok [(identity, StartupReply.raisedException e)]) := by
  refine ⟨⟨_, rfl⟩, ?_, ?_, ?_⟩
  · intro e hd
    simp [run_startup_loop, hd]
  · intro e hd ht
    simp [run_startup_loop, hd, ht]
  · intro e t hd ht hn hm
    simp [run_startup_loop, hd, ht, hn, hm]

theorem claim_C6_witness :
    decodeFail "msg0" = Except.error (Exc.valueError "bad pickle") ∧
    run_startup_loop (Except.ok ("id0", "msg0")) decodeFail false
        (Except.ok false) (Except.ok "") =
      Except.ok [("id0", StartupReply.raisedException (Exc.valueError "bad pickle"))] :=
  ⟨rfl, (claim_C6_startup_reply "id0" "msg0" decodeFail false (Except.ok false)
    (Except.ok "")).2.1 (Exc.valueError "bad pickle") rfl⟩

end VllmMQ
